import Mathlib

/-!
Verification of `tools/generate_conda_file.py`.

Shallow embedding of the conda-environment-file generator. The script's
module-level package dictionaries become ordered association lists
(`Table`), Python's in-place `dict.update` becomes `Table.update`, and the
`__main__` block becomes the pure function `generate`, which threads the
process-wide mutable dictionaries (`ModuleState`) explicitly and returns
the rendered manifest text together with the output file name, or the
error raised for unsupported platforms. Writing the output file is
modelled by the `Except.ok` payload: the error branch carries no text and
no file name, mirroring the script, where the exception is raised before
the file is opened.
-/

/-- A Python `dict` with string keys and values: an ordered association
list; insertion order is iteration order. All dictionary literals of the
script have pairwise distinct keys, and updates never duplicate a key. -/
abbrev Table := List (String × String)

/-- Python `d[k] = v` as performed for each overlay pair by `dict.update`:
an existing key keeps its position and gets the new value; a new key is
appended at the end. -/
def Table.updateOne (t : Table) (k v : String) : Table :=
  match t with
  | [] => [(k, v)]
  | (k', v') :: rest =>
    if k' = k then (k, v) :: rest else (k', v') :: Table.updateOne rest k v

/-- Python `base.update(overlay)`: set each overlay pair in the base, in
the overlay's insertion order. -/
def Table.update (t overlay : Table) : Table :=
  overlay.foldl (fun acc p => Table.updateOne acc p.1 p.2) t

/-- The keys of a table, in order. -/
def Table.keys (t : Table) : List String :=
  t.map Prod.fst

/-- The values of a table, in order (what the script's `.values()` loops
iterate over). -/
def Table.values (t : Table) : List String :=
  t.map Prod.snd

/-- Python `d[k]` / `k in d`: the value stored at the first (and, for the
script's tables, only) occurrence of the key. -/
def Table.lookup (t : Table) (k : String) : Option String :=
  match t with
  | [] => none
  | (k', v') :: rest => if k' = k then some v' else Table.lookup rest k

/-- `HELP_MSG`, with the `{conda_env}` substitution of `str.format`
applied. The backslash-newline inside the Python triple-quoted literal
joins the last two physical lines into one. -/
def HELP_MSG (conda_env : String) : String :=
  "\nTo create the conda environment:\n$ conda env create -f " ++ conda_env ++
  ".yaml\n\nTo update the conda environment:\n$ conda env update -f " ++ conda_env ++
  ".yaml\n\nTo register the conda environment in Jupyter:\n$ conda activate " ++ conda_env ++
  "\n$ python -m ipykernel install --user --name " ++ conda_env ++
  " --display-name \"Python (" ++ conda_env ++ ")\"\n"

def CHANNELS : List String := ["defaults", "conda-forge", "pytorch"]

def CONDA_BASE : Table := [
  ("python", "python==3.6.8"),
  ("pip", "pip>=19.1.1"),
  ("ipykernel", "ipykernel>=4.6.1"),
  ("jupyter", "jupyter>=1.0.0"),
  ("matplotlib", "matplotlib>=2.2.2"),
  ("numpy", "numpy>=1.13.3"),
  ("pandas", "pandas>=0.24.2"),
  ("pytest", "pytest>=3.6.4"),
  ("pytorch", "pytorch-cpu>=1.0.0"),
  ("scipy", "scipy>=1.0.0"),
  ("tensorflow", "tensorflow==1.12.0"),
  ("h5py", "h5py>=2.8.0"),
  ("tensorflow-hub", "tensorflow-hub==0.5.0"),
  ("py-xgboost", "py-xgboost<=0.80")]

def CONDA_GPU : Table := [
  ("numba", "numba>=0.38.1"),
  ("pytorch", "pytorch>=1.0.0"),
  ("tensorflow", "tensorflow-gpu==1.12.0")]

def PIP_BASE : Table := [
  ("allennlp", "allennlp==0.8.4"),
  ("azureml-sdk[automl]", "azureml-sdk[automl]==1.0.48"),
  ("azureml-train-automl", "azureml-train-automl==1.0.48"),
  ("azureml-dataprep", "azureml-dataprep==1.1.8"),
  ("azureml-widgets", "azureml-widgets==1.0.48"),
  ("azureml-mlflow", "azureml-mlflow>=1.0.43.1"),
  ("black", "black>=18.6b4"),
  ("cached-property", "cached-property==1.5.1"),
  ("dask", "dask[dataframe]==1.2.2"),
  ("papermill", "papermill>=1.0.1"),
  ("nteract-scrapbook", "nteract-scrapbook>=0.2.1"),
  ("pydocumentdb", "pydocumentdb>=2.3.3"),
  ("tqdm", "tqdm==4.31.1"),
  ("pyemd", "pyemd==0.5.1"),
  ("ipywebrtc", "ipywebrtc==0.4.3"),
  ("pre-commit", "pre-commit>=1.14.4"),
  ("scikit-learn", "scikit-learn>=0.19.0,<=0.20.3"),
  ("setuptools_scm", "setuptools_scm==3.2."),
  ("sklearn-crfsuite", "sklearn-crfsuite>=0.3.6"),
  ("spacy", "spacy>=2.1.4"),
  ("spacy-models",
    "https://github.com/explosion/spacy-models/releases/download/en_core_web_sm-2.1.0/en_core_web_sm-2.1.0.tar.gz"),
  ("gensim", "gensim>=3.7.0"),
  ("nltk", "nltk>=3.4"),
  ("pytorch-pretrained-bert", "pytorch-pretrained-bert>=0.6"),
  ("seqeval", "seqeval>=0.0.12")]

def PIP_GPU : Table := []

def PIP_DARWIN : Table := []

def PIP_DARWIN_GPU : Table := [("horovod", "horovod>=0.16.1")]

def PIP_LINUX : Table := []

def PIP_LINUX_GPU : Table := [("horovod", "horovod>=0.16.1")]

def CONDA_LINUX : Table := [("cudatoolkit", "cudatoolkit>=9.2")]

def PIP_WIN32 : Table := []

def PIP_WIN32_GPU : Table := []

def CONDA_WIN32 : Table := [("pytorch", "pytorch==1.0.0"), ("cudatoolkit", "cuda90")]

/-- The process-wide dictionaries the script mutates: `conda_packages`
aliases `CONDA_BASE`, `pip_packages` aliases `PIP_BASE`, and the platform
branches call `.update` on them and on `PIP_GPU` in place, so a run's
merges land in the module-level tables themselves. -/
structure ModuleState where
  CONDA_BASE : Table
  PIP_BASE : Table
  PIP_GPU : Table
deriving DecidableEq, Repr

/-- The module state at interpreter start, before any invocation. -/
def initState : ModuleState :=
  { CONDA_BASE := CONDA_BASE, PIP_BASE := PIP_BASE, PIP_GPU := PIP_GPU }

/-- Python `platform.startswith(pre)`: `pre` is a prefix of the string.
(Stated on the character lists so that it is kernel-computable; it agrees
with `String.startsWith`.) -/
def startswith (s pre : String) : Bool :=
  pre.toList.isPrefixOf s.toList

/-- Name resolution (lines 118-125): default `nlp_cpu`, `nlp_gpu` when
`--gpu` is given, both overridden by an explicit `--name`. -/
def conda_env (args_name : Option String) (args_gpu : Bool) : String :=
  match args_name with
  | some n => n
  | none => if args_gpu then "nlp_gpu" else "nlp_cpu"

/-- Output file name (line 151): `"{}.yaml".format(conda_env)`. -/
def conda_file (conda_env : String) : String :=
  conda_env ++ ".yaml"

/-- The comment header: each line of the formatted `HELP_MSG` (split on
newlines) written as `# <line>\n` (lines 153-154). -/
def comment_header (conda_env : String) : String :=
  String.join (((HELP_MSG conda_env).splitOn "\n").map (fun line => "# " ++ line ++ "\n"))

/-- The `channels:` section (lines 156-158): the fixed channel list, one
`- <channel>\n` line each. -/
def channels_block : String :=
  "channels:\n" ++ String.join (CHANNELS.map (fun c => "- " ++ c ++ "\n"))

/-- The `dependencies:` section (lines 159-164): one `- <spec>\n` line per
conda-table value in order, then `- pip:\n` and one `  - <spec>\n` line
per pip-table value in order. -/
def deps_block (conda_packages pip_packages : Table) : String :=
  "dependencies:\n" ++
  String.join ((Table.values conda_packages).map (fun s => "- " ++ s ++ "\n")) ++
  "- pip:\n" ++
  String.join ((Table.values pip_packages).map (fun s => "  - " ++ s ++ "\n"))

/-- The full text written to the yaml file (lines 152-164). -/
def render (conda_env : String) (conda_packages pip_packages : Table) : String :=
  comment_header conda_env ++
  ("name: " ++ conda_env ++ "\n") ++
  channels_block ++
  deps_block conda_packages pip_packages

/-- One invocation's result: the module state after the run (the mutated
dictionaries), the manifest text, and the output file name. -/
abbrev GenResult := ModuleState × String × String

/-- The code shared by the three platform branches once each has updated
its tables (lines 146-164): merge `CONDA_GPU` and the (already
platform-updated) `PIP_GPU` when `--gpu` is given, then render and name
the output file. The first component is the post-run module state:
`conda_packages` aliases the module-level `CONDA_BASE` and `pip_packages`
aliases `PIP_BASE`, so the merged tables are the module tables. -/
def mkResult (env : String) (args_gpu : Bool)
    (conda_packages pip_packages pip_gpu : Table) : GenResult :=
  ((ModuleState.mk
      (if args_gpu then Table.update conda_packages CONDA_GPU else conda_packages)
      (if args_gpu then Table.update pip_packages pip_gpu else pip_packages)
      pip_gpu),
   render env
     (if args_gpu then Table.update conda_packages CONDA_GPU else conda_packages)
     (if args_gpu then Table.update pip_packages pip_gpu else pip_packages),
   conda_file env)

/-- The `__main__` block (lines 101-164) as a pure function of the module
state, the parsed arguments and `sys.platform`: resolve the name, update
the tables for the detected platform (raising for unsupported platforms
before any output exists), merge the GPU overlays if requested, and render
the manifest. -/
def generate (st : ModuleState) (args_name : Option String) (args_gpu : Bool)
    (platform : String) : Except String GenResult :=
  if platform = "darwin" then
    Except.ok (mkResult (conda_env args_name args_gpu) args_gpu
      st.CONDA_BASE
      (Table.update st.PIP_BASE PIP_DARWIN)
      (Table.update st.PIP_GPU PIP_DARWIN_GPU))
  else if startswith platform "linux" then
    Except.ok (mkResult (conda_env args_name args_gpu) args_gpu
      (Table.update st.CONDA_BASE CONDA_LINUX)
      (Table.update st.PIP_BASE PIP_LINUX)
      (Table.update st.PIP_GPU PIP_LINUX_GPU))
  else if platform = "win32" then
    Except.ok (mkResult (conda_env args_name args_gpu) args_gpu
      (Table.update st.CONDA_BASE CONDA_WIN32)
      (Table.update st.PIP_BASE PIP_WIN32)
      (Table.update st.PIP_GPU PIP_WIN32_GPU))
  else
    Except.error "Unsupported platform. Must be Windows, Linux, or macOS"

/-! ## Lemmas about the dictionary operations -/

theorem Table.update_nil (t : Table) : Table.update t [] = t := rfl

theorem Table.update_cons (t : Table) (k v : String) (o : Table) :
    Table.update t ((k, v) :: o) = Table.update (Table.updateOne t k v) o := rfl

theorem Table.lookup_updateOne_self (t : Table) (k v : String) :
    Table.lookup (Table.updateOne t k v) k = some v := by
  induction t with
  | nil => simp [Table.updateOne, Table.lookup]
  | cons p rest ih =>
    obtain ⟨k', v'⟩ := p
    by_cases h : k' = k
    · simp [Table.updateOne, h, Table.lookup]
    · simp [Table.updateOne, h, Table.lookup, ih]

theorem Table.lookup_updateOne_ne (t : Table) {k k' : String} (v : String) (h : k' ≠ k) :
    Table.lookup (Table.updateOne t k v) k' = Table.lookup t k' := by
  induction t with
  | nil => simp [Table.updateOne, Table.lookup, Ne.symm h]
  | cons p rest ih =>
    obtain ⟨k0, v0⟩ := p
    by_cases h0 : k0 = k
    · subst h0
      simp [Table.updateOne, Table.lookup, Ne.symm h]
    · simp [Table.updateOne, h0, Table.lookup, ih]

theorem Table.keys_cons (k0 v0 : String) (rest : Table) :
    Table.keys ((k0, v0) :: rest) = k0 :: Table.keys rest := rfl

theorem Table.keys_updateOne_of_mem (k v : String) :
    ∀ t : Table, k ∈ Table.keys t → Table.keys (Table.updateOne t k v) = Table.keys t
  | [], h => absurd h (List.not_mem_nil k)
  | (k0, v0) :: rest, h => by
    by_cases h0 : k0 = k
    · subst h0
      simp [Table.updateOne, Table.keys]
    · have hrest : k ∈ Table.keys rest := by
        rw [Table.keys_cons] at h
        rcases List.mem_cons.mp h with h1 | h1
        · exact absurd h1.symm h0
        · exact h1
      simp only [Table.updateOne, if_neg h0]
      rw [Table.keys_cons, Table.keys_cons, Table.keys_updateOne_of_mem k v rest hrest]

theorem Table.updateOne_of_not_mem (k v : String) :
    ∀ t : Table, k ∉ Table.keys t → Table.updateOne t k v = t ++ [(k, v)]
  | [], _ => rfl
  | (k0, v0) :: rest, h => by
    rw [Table.keys_cons] at h
    have h0 : k0 ≠ k := fun hh => h (hh ▸ List.mem_cons_self k0 (Table.keys rest))
    have hrest : k ∉ Table.keys rest := fun hh => h (List.mem_cons_of_mem k0 hh)
    simp only [Table.updateOne, if_neg h0, List.cons_append]
    rw [Table.updateOne_of_not_mem k v rest hrest]

theorem Table.lookup_update_of_not_mem (k : String) :
    ∀ (o t : Table), k ∉ Table.keys o →
      Table.lookup (Table.update t o) k = Table.lookup t k
  | [], _, _ => rfl
  | (k0, v0) :: o', t, h => by
    rw [Table.keys_cons] at h
    have h0 : k ≠ k0 := fun hh => h (hh ▸ List.mem_cons_self k0 (Table.keys o'))
    have h' : k ∉ Table.keys o' := fun hh => h (List.mem_cons_of_mem k0 hh)
    rw [Table.update_cons, Table.lookup_update_of_not_mem k o' _ h']
    exact Table.lookup_updateOne_ne t v0 h0

theorem Table.lookup_update_of_lookup (k v : String) :
    ∀ (o t : Table), (Table.keys o).Nodup → Table.lookup o k = some v →
      Table.lookup (Table.update t o) k = some v
  | [], _, _, h => by simp [Table.lookup] at h
  | (k0, v0) :: o', t, hnd, h => by
    rw [Table.keys_cons] at hnd
    rw [Table.update_cons]
    by_cases hk : k0 = k
    · subst hk
      have hv : v0 = v := by simpa [Table.lookup] using h
      have hmem : k0 ∉ Table.keys o' := (List.nodup_cons.mp hnd).1
      rw [Table.lookup_update_of_not_mem k0 o' _ hmem, Table.lookup_updateOne_self, hv]
    · have h' : Table.lookup o' k = some v := by simpa [Table.lookup, hk] using h
      exact Table.lookup_update_of_lookup k v o' (Table.updateOne t k0 v0)
        (List.nodup_cons.mp hnd).2 h'

theorem Table.mem_values_of_lookup (k v : String) :
    ∀ t : Table, Table.lookup t k = some v → v ∈ Table.values t
  | [], h => by simp [Table.lookup] at h
  | (k0, v0) :: rest, h => by
    by_cases hk : k0 = k
    · have hv : v0 = v := by simpa [Table.lookup, hk] using h
      simp [Table.values, hv]
    · have h' : Table.lookup rest k = some v := by simpa [Table.lookup, hk] using h
      have := Table.mem_values_of_lookup k v rest h'
      simp only [Table.values, List.map_cons] at this ⊢
      exact List.mem_cons_of_mem _ this

theorem String.join_cons (s : String) (l : List String) :
    String.join (s :: l) = s ++ String.join l := by
  apply String.ext
  simp

theorem String.join_map_contains {α : Type} (f : α → String) {v : α} {l : List α} (h : v ∈ l) :
    ∃ a b : String, String.join (l.map f) = a ++ (f v ++ b) := by
  induction l with
  | nil => cases h
  | cons x xs ih =>
    rcases List.mem_cons.mp h with rfl | hx
    · exact ⟨"", String.join (xs.map f), by
        rw [List.map_cons, String.join_cons, String.empty_append]⟩
    · obtain ⟨a, b, hab⟩ := ih hx
      exact ⟨f x ++ a, b, by
        rw [List.map_cons, String.join_cons, hab, String.append_assoc]⟩

/-- A value in the conda table gives a `- <spec>\n` line somewhere inside
the rendered manifest. -/
theorem render_contains_conda_line (env : String) (cp pp : Table) {v : String}
    (h : v ∈ Table.values cp) :
    ∃ a b, render env cp pp = a ++ (("- " ++ v ++ "\n") ++ b) := by
  obtain ⟨a, b, hab⟩ := String.join_map_contains (fun s => "- " ++ s ++ "\n") h
  refine ⟨comment_header env ++ ("name: " ++ env ++ "\n") ++ channels_block ++
      "dependencies:\n" ++ a,
    b ++ ("- pip:\n" ++
      String.join ((Table.values pp).map (fun s => "  - " ++ s ++ "\n"))), ?_⟩
  unfold render deps_block
  rw [hab]
  simp only [String.append_assoc]

/-- Every successful run's text and output name are the render and the
`.yaml` name of the run's own post-state tables. -/
theorem generate_text (st : ModuleState) (n : Option String) (g : Bool) (p : String)
    (res : GenResult) (h : generate st n g p = Except.ok res) :
    res.2.1 = render (conda_env n g) res.1.CONDA_BASE res.1.PIP_BASE ∧
    res.2.2 = conda_file (conda_env n g) := by
  unfold generate at h
  split at h
  · injection h with h'
    subst h'
    exact ⟨rfl, rfl⟩
  · split at h
    · injection h with h'
      subst h'
      exact ⟨rfl, rfl⟩
    · split at h
      · injection h with h'
        subst h'
        exact ⟨rfl, rfl⟩
      · exact Except.noConfusion h

/-- The post-run module state does not depend on the environment name. -/
theorem mkResult_fst (e1 e2 : String) (g : Bool) (a b c : Table) :
    (mkResult e1 g a b c).1 = (mkResult e2 g a b c).1 := rfl

/-- The post-run module state does not depend on the `--name` argument. -/
theorem state_of_generate (st : ModuleState) (n : Option String) (g : Bool) (p : String) :
    (generate st n g p).map Prod.fst = (generate st none g p).map Prod.fst := by
  unfold generate
  by_cases hd : p = "darwin"
  · rw [if_pos hd, if_pos hd]
    exact congrArg Except.ok (mkResult_fst _ _ g _ _ _)
  · rw [if_neg hd, if_neg hd]
    by_cases hl : startswith p "linux" = true
    · rw [if_pos hl, if_pos hl]
      exact congrArg Except.ok (mkResult_fst _ _ g _ _ _)
    · rw [if_neg hl, if_neg hl]
      by_cases hw : p = "win32"
      · rw [if_pos hw, if_pos hw]
        exact congrArg Except.ok (mkResult_fst _ _ g _ _ _)
      · rw [if_neg hw, if_neg hw]

/-! ## Claims -/

/-- C1: for every successful run, the output file name is the resolved
environment name plus the fixed `.yaml` extension, where the resolved name
is `nlp_cpu` with no explicit name and accelerator off, `nlp_gpu` with no
explicit name and accelerator on, and the explicitly supplied name
otherwise (regardless of the accelerator flag); and the rendered text
carries a `name: <resolved name>` line. -/
theorem name_resolution (st : ModuleState) (args_name : Option String) (args_gpu : Bool)
    (p : String) (res : GenResult) (h : generate st args_name args_gpu p = Except.ok res) :
    conda_env none false = "nlp_cpu" ∧
    conda_env none true = "nlp_gpu" ∧
    (∀ n g, conda_env (some n) g = n) ∧
    res.2.2 = conda_env args_name args_gpu ++ ".yaml" ∧
    ∃ a b, res.2.1 = a ++ (("name: " ++ conda_env args_name args_gpu ++ "\n") ++ b) := by
  have key : ∃ cp pp : Table,
      res.2.1 = render (conda_env args_name args_gpu) cp pp ∧
      res.2.2 = conda_file (conda_env args_name args_gpu) := by
    unfold generate at h
    split at h
    · injection h with h'
      subst h'
      exact ⟨_, _, rfl, rfl⟩
    · split at h
      · injection h with h'
        subst h'
        exact ⟨_, _, rfl, rfl⟩
      · split at h
        · injection h with h'
          subst h'
          exact ⟨_, _, rfl, rfl⟩
        · exact Except.noConfusion h
  obtain ⟨cp, pp, h1, h2⟩ := key
  refine ⟨rfl, rfl, fun n g => rfl, ?_, ?_⟩
  · rw [h2]; rfl
  · refine ⟨comment_header (conda_env args_name args_gpu),
      channels_block ++ deps_block cp pp, ?_⟩
    rw [h1]
    unfold render
    rw [String.append_assoc, String.append_assoc]

/-- C1 (witness): the first plain run on linux writes `nlp_cpu.yaml`. -/
theorem name_resolution_witness :
    (generate initState none false "linux").toOption.map (fun r => r.2.2) =
      some "nlp_cpu.yaml" := by
  obtain ⟨r, hr⟩ : ∃ r, generate initState none false "linux" = Except.ok r := ⟨_, rfl⟩
  have h := name_resolution initState none false "linux" r hr
  rw [hr]
  show some r.2.2 = some "nlp_cpu.yaml"
  rw [h.2.2.2.1]
  decide

/-- C2: for every platform value outside the three recognized families
(`darwin`, anything beginning with `linux`, `win32`), generation raises
the unsupported-platform error, and — the error being raised before the
output file is opened — produces no output (the `Except.error` branch
carries no text and no file name); for every platform value inside the
three families the run succeeds and this error is not raised. -/
theorem unsupported_platform (st : ModuleState) (n : Option String) (g : Bool) (p : String) :
    (p ≠ "darwin" → startswith p "linux" = false → p ≠ "win32" →
      generate st n g p =
        Except.error "Unsupported platform. Must be Windows, Linux, or macOS") ∧
    (p = "darwin" ∨ startswith p "linux" = true ∨ p = "win32" →
      (generate st n g p).isOk = true) := by
  constructor
  · intro h1 h2 h3
    unfold generate
    rw [if_neg h1, if_neg (by simp [h2]), if_neg h3]
  · intro h
    unfold generate
    by_cases hd : p = "darwin"
    · rw [if_pos hd]; rfl
    · by_cases hl : startswith p "linux" = true
      · rw [if_neg hd, if_pos hl]; rfl
      · rcases h with h | h | h
        · exact absurd h hd
        · exact absurd h hl
        · rw [if_neg hd, if_neg hl, if_pos h]; rfl

/-- C2 (witness): platform `foo` raises; platform `darwin` succeeds. -/
theorem unsupported_platform_witness :
    generate initState none false "foo" =
      Except.error "Unsupported platform. Must be Windows, Linux, or macOS" ∧
    (generate initState none false "darwin").isOk = true := by
  constructor
  · exact (unsupported_platform initState none false "foo").1
      (by decide) (by decide) (by decide)
  · exact (unsupported_platform initState none false "darwin").2 (Or.inl rfl)

/-- C9: for a run with `platform=win32` and accelerator on, the resolved
interpreter table maps `pytorch` to the accelerator overlay's specifier
`pytorch>=1.0.0` (overriding the Windows pin `pytorch==1.0.0`), while
`cudatoolkit` keeps the Windows platform value `cuda90`, the accelerator
overlay having no `cudatoolkit` key. -/
theorem win32_gpu_override (st : ModuleState) (n : Option String) (res : GenResult)
    (h : generate st n true "win32" = Except.ok res) :
    Table.lookup res.1.CONDA_BASE "pytorch" = some "pytorch>=1.0.0" ∧
    Table.lookup res.1.CONDA_BASE "cudatoolkit" = some "cuda90" ∧
    Table.lookup CONDA_WIN32 "pytorch" = some "pytorch==1.0.0" ∧
    Table.lookup CONDA_GPU "pytorch" = some "pytorch>=1.0.0" ∧
    Table.lookup CONDA_GPU "cudatoolkit" = none := by
  unfold generate at h
  rw [if_neg (by decide), if_neg (by decide), if_pos rfl] at h
  injection h with h'
  subst h'
  refine ⟨?_, ?_, by decide, by decide, by decide⟩
  · show Table.lookup
      (Table.update (Table.update st.CONDA_BASE CONDA_WIN32) CONDA_GPU) "pytorch" =
      some "pytorch>=1.0.0"
    exact Table.lookup_update_of_lookup "pytorch" "pytorch>=1.0.0" CONDA_GPU _
      (by decide) (by decide)
  · show Table.lookup
      (Table.update (Table.update st.CONDA_BASE CONDA_WIN32) CONDA_GPU) "cudatoolkit" =
      some "cuda90"
    rw [Table.lookup_update_of_not_mem "cudatoolkit" CONDA_GPU _ (by decide)]
    exact Table.lookup_update_of_lookup "cudatoolkit" "cuda90" CONDA_WIN32 _
      (by decide) (by decide)

/-- C9 (witness): the first `win32` GPU run shows the override and the
retained Windows toolkit value. -/
theorem win32_gpu_override_witness :
    (generate initState none true "win32").toOption.map
      (fun r => (Table.lookup r.1.CONDA_BASE "pytorch",
                 Table.lookup r.1.CONDA_BASE "cudatoolkit")) =
      some (some "pytorch>=1.0.0", some "cuda90") := by
  obtain ⟨r, hr⟩ : ∃ r, generate initState none true "win32" = Except.ok r := ⟨_, rfl⟩
  have h := win32_gpu_override initState none r hr
  rw [hr]
  show some (Table.lookup r.1.CONDA_BASE "pytorch",
             Table.lookup r.1.CONDA_BASE "cudatoolkit") = _
  rw [h.1, h.2.1]

/-- C10: the merge step lands in the process-wide tables themselves
(`conda_packages` and `pip_packages` alias the module-level `CONDA_BASE`
and `PIP_BASE`, and `PIP_GPU.update` is called on the module-level
`PIP_GPU`): after a linux GPU run the module-level state holds exactly the
merged tables, and the base tables are not preserved unchanged. -/
theorem inplace_table_mutation (st : ModuleState) (n : Option String) (res : GenResult)
    (h : generate st n true "linux" = Except.ok res) :
    res.1.CONDA_BASE = Table.update (Table.update st.CONDA_BASE CONDA_LINUX) CONDA_GPU ∧
    res.1.PIP_GPU = Table.update st.PIP_GPU PIP_LINUX_GPU ∧
    res.1.PIP_BASE = Table.update (Table.update st.PIP_BASE PIP_LINUX)
      (Table.update st.PIP_GPU PIP_LINUX_GPU) ∧
    (st = initState → res.1 ≠ initState) := by
  unfold generate at h
  rw [if_neg (by decide), if_pos (by decide)] at h
  injection h with h'
  subst h'
  refine ⟨rfl, rfl, rfl, ?_⟩
  intro he hcontra
  have hx : Table.update st.PIP_GPU PIP_LINUX_GPU = initState.PIP_GPU :=
    congrArg ModuleState.PIP_GPU hcontra
  rw [he] at hx
  exact absurd hx (by decide)

/-- C10 (witness): after the first linux GPU run, the module-level
`PIP_GPU` contains the merged horovod entry. -/
theorem inplace_table_mutation_witness :
    (generate initState none true "linux").toOption.map (fun r => r.1.PIP_GPU) =
      some (Table.update PIP_GPU PIP_LINUX_GPU) := by
  obtain ⟨r, hr⟩ : ∃ r, generate initState none true "linux" = Except.ok r := ⟨_, rfl⟩
  have h := inplace_table_mutation initState none r hr
  rw [hr]
  show some r.1.PIP_GPU = _
  rw [h.2.1]
  rfl

/-- C3: for every key present in both a base table and an overlay merged
during the run, the resolved table maps the key to the overlay's value,
which is therefore among the rendered values; concretely, in a linux GPU
run every key shared by the base interpreter table and the accelerator
overlay `CONDA_GPU` (such as `pytorch` and `tensorflow`) ends up with the
overlay's specifier in the resolved table, and that specifier appears as a
`- <spec>` line of the rendered output. -/
theorem merge_override :
    (∀ (t o : Table) (k v : String), (Table.keys o).Nodup → Table.lookup o k = some v →
      Table.lookup (Table.update t o) k = some v ∧
      v ∈ Table.values (Table.update t o)) ∧
    (∀ (st : ModuleState) (n : Option String) (res : GenResult),
      generate st n true "linux" = Except.ok res →
      ∀ k vb vo, Table.lookup st.CONDA_BASE k = some vb →
        Table.lookup CONDA_GPU k = some vo →
        Table.lookup res.1.CONDA_BASE k = some vo ∧
        ∃ a b, res.2.1 = a ++ (("- " ++ vo ++ "\n") ++ b)) := by
  constructor
  · intro t o k v hnd hv
    exact ⟨Table.lookup_update_of_lookup k v o t hnd hv,
      Table.mem_values_of_lookup k v _ (Table.lookup_update_of_lookup k v o t hnd hv)⟩
  · intro st n res h k vb vo hb ho
    unfold generate at h
    rw [if_neg (by decide), if_pos (by decide)] at h
    injection h with h'
    subst h'
    have hlook : Table.lookup
        (Table.update (Table.update st.CONDA_BASE CONDA_LINUX) CONDA_GPU) k = some vo :=
      Table.lookup_update_of_lookup k vo CONDA_GPU _ (by decide) ho
    refine ⟨hlook, ?_⟩
    exact render_contains_conda_line (conda_env n true) _ _
      (Table.mem_values_of_lookup k vo _ hlook)

/-- C3 (witness): `pytorch` is in both `CONDA_BASE` and `CONDA_GPU`; after
the merge its specifier is the overlay's, also in a concrete linux GPU
run. -/
theorem merge_override_witness :
    Table.lookup (Table.update CONDA_BASE CONDA_GPU) "pytorch" = some "pytorch>=1.0.0" ∧
    (generate initState none true "linux").toOption.map
      (fun r => Table.lookup r.1.CONDA_BASE "tensorflow") =
        some (some "tensorflow-gpu==1.12.0") := by
  constructor
  · exact (merge_override.1 CONDA_BASE CONDA_GPU "pytorch" "pytorch>=1.0.0"
      (by decide) (by decide)).1
  · obtain ⟨r, hr⟩ : ∃ r, generate initState none true "linux" = Except.ok r := ⟨_, rfl⟩
    have h := (merge_override.2 initState none r hr "tensorflow"
      "tensorflow==1.12.0" "tensorflow-gpu==1.12.0" (by decide) (by decide)).1
    rw [hr]
    show some (Table.lookup r.1.CONDA_BASE "tensorflow") = _
    rw [h]

/-- C4: merging an overlay overwrites entries sharing a key in place
(the key list is unchanged, the stored value becomes the overlay's) and
appends entries with new keys after all existing keys; and in every
successful run — on each of the three platform families — the platform
overlay is merged before the accelerator overlay (the accelerator update
is applied to the table already holding the platform update), and the
rendered text enumerates the resulting tables via `render`, i.e. in their
insertion order. -/
theorem merge_semantics :
    (∀ (t : Table) (k v : String), k ∈ Table.keys t →
      Table.keys (Table.updateOne t k v) = Table.keys t ∧
      Table.lookup (Table.updateOne t k v) k = some v) ∧
    (∀ (t : Table) (k v : String), k ∉ Table.keys t →
      Table.updateOne t k v = t ++ [(k, v)]) ∧
    (∀ (st : ModuleState) (n : Option String) (g : Bool) (p : String) (res : GenResult),
      generate st n g p = Except.ok res →
      res.2.1 = render (conda_env n g) res.1.CONDA_BASE res.1.PIP_BASE ∧
      (p = "darwin" →
        res.1.CONDA_BASE =
          (if g then Table.update st.CONDA_BASE CONDA_GPU else st.CONDA_BASE) ∧
        res.1.PIP_BASE =
          (if g then Table.update (Table.update st.PIP_BASE PIP_DARWIN)
              (Table.update st.PIP_GPU PIP_DARWIN_GPU)
           else Table.update st.PIP_BASE PIP_DARWIN)) ∧
      (startswith p "linux" = true →
        res.1.CONDA_BASE =
          (if g then Table.update (Table.update st.CONDA_BASE CONDA_LINUX) CONDA_GPU
           else Table.update st.CONDA_BASE CONDA_LINUX) ∧
        res.1.PIP_BASE =
          (if g then Table.update (Table.update st.PIP_BASE PIP_LINUX)
              (Table.update st.PIP_GPU PIP_LINUX_GPU)
           else Table.update st.PIP_BASE PIP_LINUX)) ∧
      (p = "win32" →
        res.1.CONDA_BASE =
          (if g then Table.update (Table.update st.CONDA_BASE CONDA_WIN32) CONDA_GPU
           else Table.update st.CONDA_BASE CONDA_WIN32) ∧
        res.1.PIP_BASE =
          (if g then Table.update (Table.update st.PIP_BASE PIP_WIN32)
              (Table.update st.PIP_GPU PIP_WIN32_GPU)
           else Table.update st.PIP_BASE PIP_WIN32))) := by
  refine ⟨?_, ?_, ?_⟩
  · intro t k v hk
    exact ⟨Table.keys_updateOne_of_mem k v t hk, Table.lookup_updateOne_self t k v⟩
  · intro t k v hk
    exact Table.updateOne_of_not_mem k v t hk
  · intro st n g p res h
    unfold generate at h
    by_cases hd : p = "darwin"
    · rw [if_pos hd] at h
      injection h with h'
      subst h'
      refine ⟨rfl, fun _ => ⟨rfl, rfl⟩, ?_, ?_⟩
      · intro hl
        rw [hd] at hl
        exact absurd hl (by decide)
      · intro hw
        rw [hd] at hw
        exact absurd hw (by decide)
    · by_cases hl : startswith p "linux" = true
      · rw [if_neg hd, if_pos hl] at h
        injection h with h'
        subst h'
        refine ⟨rfl, fun hdd => absurd hdd hd, fun _ => ⟨rfl, rfl⟩, ?_⟩
        intro hw
        rw [hw] at hl
        exact absurd hl (by decide)
      · by_cases hw : p = "win32"
        · rw [if_neg hd, if_neg hl, if_pos hw] at h
          injection h with h'
          subst h'
          exact ⟨rfl, fun hdd => absurd hdd hd, fun hll => absurd hll hl,
            fun _ => ⟨rfl, rfl⟩⟩
        · rw [if_neg hd, if_neg hl, if_neg hw] at h
          exact Except.noConfusion h

/-- C4 (witness): overwriting `pytorch` keeps the key list; a fresh key
`numba` is appended; a concrete plain linux run merges the platform
overlay, and a concrete win32 GPU run shows the accelerator overlay
applied after the Windows platform overlay. -/
theorem merge_semantics_witness :
    Table.keys (Table.updateOne CONDA_BASE "pytorch" "pytorch>=1.0.0") =
      Table.keys CONDA_BASE ∧
    Table.updateOne CONDA_BASE "numba" "numba>=0.38.1" =
      CONDA_BASE ++ [("numba", "numba>=0.38.1")] ∧
    (generate initState none false "linux").toOption.map (fun r => r.1.PIP_BASE) =
      some (Table.update PIP_BASE PIP_LINUX) ∧
    (generate initState none true "win32").toOption.map (fun r => r.1.CONDA_BASE) =
      some (Table.update (Table.update CONDA_BASE CONDA_WIN32) CONDA_GPU) := by
  refine ⟨(merge_semantics.1 CONDA_BASE "pytorch" "pytorch>=1.0.0" (by decide)).1,
    merge_semantics.2.1 CONDA_BASE "numba" "numba>=0.38.1" (by decide), ?_, ?_⟩
  · obtain ⟨r, hr⟩ : ∃ r, generate initState none false "linux" = Except.ok r := ⟨_, rfl⟩
    have h := ((merge_semantics.2.2 initState none false "linux" r hr).2.2.1 (by decide)).2
    rw [hr]
    show some r.1.PIP_BASE = _
    rw [h]
    rfl
  · obtain ⟨r, hr⟩ : ∃ r, generate initState none true "win32" = Except.ok r := ⟨_, rfl⟩
    have h := ((merge_semantics.2.2 initState none true "win32" r hr).2.2.2 rfl).1
    rw [hr]
    show some r.1.CONDA_BASE = _
    rw [h]
    rfl

/-- C7: two invocations with identical inputs (same name, accelerator
flag and platform), the second starting from the module state the first
left behind, produce the same manifest text and the same output file
name. -/
theorem idempotence (n : Option String) (g : Bool) (p : String) (r1 r2 : GenResult)
    (h1 : generate initState n g p = Except.ok r1)
    (h2 : generate r1.1 n g p = Except.ok r2) :
    r2.2.1 = r1.2.1 ∧ r2.2.2 = r1.2.2 := by
  have t1 := generate_text initState n g p r1 h1
  have t2 := generate_text r1.1 n g p r2 h2
  have s1 := congrArg (Except.map Prod.fst) h1
  have s2 := congrArg (Except.map Prod.fst) h2
  rw [state_of_generate] at s1 s2
  have hstate : r2.1 = r1.1 := by
    unfold generate at s1 s2
    by_cases hd : p = "darwin"
    · rw [if_pos hd] at s1 s2
      cases g <;>
      · injection s1 with e1
        injection s2 with e2
        rw [← e1] at e2
        rw [← e2, ← e1]
        decide
    · by_cases hl : startswith p "linux" = true
      · rw [if_neg hd, if_pos hl] at s1 s2
        cases g <;>
        · injection s1 with e1
          injection s2 with e2
          rw [← e1] at e2
          rw [← e2, ← e1]
          decide
      · by_cases hw : p = "win32"
        · rw [if_neg hd, if_neg hl, if_pos hw] at s1 s2
          cases g <;>
          · injection s1 with e1
            injection s2 with e2
            rw [← e1] at e2
            rw [← e2, ← e1]
            decide
        · rw [if_neg hd, if_neg hl, if_neg hw] at s1
          exact Except.noConfusion s1
  exact ⟨by rw [t2.1, t1.1, hstate], by rw [t2.2, t1.2]⟩

/-- C7 (witness): the first and second linux GPU invocations of one
process produce the same text and output name. -/
theorem idempotence_witness :
    ((generate initState none true "linux").toOption.bind
      (fun r1 => (generate r1.1 none true "linux").toOption.map
        (fun r2 => decide (r2.2.1 = r1.2.1) && decide (r2.2.2 = r1.2.2)))) = some true := by
  obtain ⟨r1, hr1, r2, hr2⟩ :
      ∃ r1, generate initState none true "linux" = Except.ok r1 ∧
        ∃ r2, generate r1.1 none true "linux" = Except.ok r2 := ⟨_, rfl, _, rfl⟩
  have h := idempotence none true "linux" r1 r2 hr1 hr2
  rw [hr1]
  show ((generate r1.1 none true "linux").toOption.map
    (fun r2 => decide (r2.2.1 = r1.2.1) && decide (r2.2.2 = r1.2.2))) = some true
  rw [hr2]
  show some (decide (r2.2.1 = r1.2.1) && decide (r2.2.2 = r1.2.2)) = some true
  rw [h.1, h.2]
  simp

/-- C8: every successful run's manifest text consists, in order, of each
line of the usage-instruction text (name substituted) prefixed with `# `,
a `name: <environment name>` line, a `channels:` line followed by the
three fixed channels as `- <channel>` lines, a `dependencies:` line
followed by one `- <spec>` line per interpreter-table value in merged
order, and a `- pip:` line followed by one two-space-indented
`  - <spec>` line per secondary-installer-table value in merged order,
each entry newline-terminated. -/
theorem rendered_layout (st : ModuleState) (n : Option String) (g : Bool) (p : String)
    (res : GenResult) (h : generate st n g p = Except.ok res) :
    CHANNELS = ["defaults", "conda-forge", "pytorch"] ∧
    res.2.1 =
      String.join (((HELP_MSG (conda_env n g)).splitOn "\n").map
        (fun line => "# " ++ line ++ "\n")) ++
      ("name: " ++ conda_env n g ++ "\n") ++
      ("channels:\n" ++ String.join (CHANNELS.map (fun c => "- " ++ c ++ "\n"))) ++
      ("dependencies:\n" ++
        String.join ((Table.values res.1.CONDA_BASE).map (fun s => "- " ++ s ++ "\n")) ++
        "- pip:\n" ++
        String.join ((Table.values res.1.PIP_BASE).map (fun s => "  - " ++ s ++ "\n"))) := by
  unfold generate at h
  split at h
  · injection h with h'
    subst h'
    exact ⟨rfl, rfl⟩
  · split at h
    · injection h with h'
      subst h'
      exact ⟨rfl, rfl⟩
    · split at h
      · injection h with h'
        subst h'
        exact ⟨rfl, rfl⟩
      · exact Except.noConfusion h

/-- C8 (witness): the layout theorem applied to the first plain darwin
run; in particular the channel list is the fixed three-channel one. -/
theorem rendered_layout_witness : CHANNELS = ["defaults", "conda-forge", "pytorch"] := by
  obtain ⟨r, hr⟩ : ∃ r, generate initState none false "darwin" = Except.ok r := ⟨_, rfl⟩
  exact (rendered_layout initState none false "darwin" r hr).1

/-- C5 (counterexample): the claim says that with accelerator off, a run
on the Windows family merges no platform-specific entries into the
interpreter-level table. It is false: the `win32` branch merges
`CONDA_WIN32`, which is non-empty, so the first `win32` run with `--gpu`
absent ends with a `cudatoolkit` entry (value `cuda90`) in the
interpreter-level table even though `CONDA_BASE` has no such key, and the
resulting table differs from the base table. -/
theorem win32_baseline_overlay_counterexample :
    (generate initState none false "win32").toOption.map
        (fun r => Table.lookup r.1.CONDA_BASE "cudatoolkit") = some (some "cuda90") ∧
    Table.lookup CONDA_BASE "cudatoolkit" = none ∧
    (generate initState none false "win32").toOption.map (fun r => r.1.CONDA_BASE) ≠
      some CONDA_BASE := by
  refine ⟨by decide, by decide, by decide⟩

/-- C5 (amended): in the baseline data both the Linux and the Windows
families contribute non-empty platform-specific interpreter-level overlays
(`CONDA_LINUX` and `CONDA_WIN32`); only the mac family merges no
interpreter-level platform entries: a `darwin` run with accelerator off
leaves the interpreter-level table equal to the base table, while a
`linux` run merges `CONDA_LINUX` and a `win32` run merges `CONDA_WIN32`. -/
theorem platform_interpreter_overlays :
    CONDA_LINUX ≠ [] ∧ CONDA_WIN32 ≠ [] ∧
    (generate initState none false "darwin").toOption.map (fun r => r.1.CONDA_BASE) =
      some CONDA_BASE ∧
    (generate initState none false "linux").toOption.map (fun r => r.1.CONDA_BASE) =
      some (Table.update CONDA_BASE CONDA_LINUX) ∧
    (generate initState none false "win32").toOption.map (fun r => r.1.CONDA_BASE) =
      some (Table.update CONDA_BASE CONDA_WIN32) ∧
    Table.update CONDA_BASE CONDA_LINUX ≠ CONDA_BASE ∧
    Table.update CONDA_BASE CONDA_WIN32 ≠ CONDA_BASE := by
  refine ⟨by decide, by decide, by decide, by decide, by decide, by decide, by decide⟩

/-- C6 (counterexample): the claim says that for `platform=linux` with
accelerator off the GPU-toolkit key is absent from the resolved
interpreter table. It is false: the Linux platform overlay `CONDA_LINUX`
is merged regardless of the accelerator flag and consists exactly of the
GPU-toolkit pin, so the `cudatoolkit` key is present after a plain
`linux` run. -/
theorem linux_cpu_cudatoolkit_counterexample :
    (generate initState none false "linux").toOption.map
      (fun r => Table.lookup r.1.CONDA_BASE "cudatoolkit") =
        some (some "cudatoolkit>=9.2") := by
  decide

/-- C6 (amended): for `platform=linux` with accelerator off, the resolved
secondary-installer table contains no accelerator-communication (horovod)
entry and the resolved interpreter table includes the Linux-specific
overlay entry — the GPU-toolkit key `cudatoolkit` is therefore present,
while the accelerator overlay's entries (e.g. `numba`) are absent and the
pytorch/tensorflow pins are the base ones; for `platform=linux` with
accelerator on, the interpreter table includes the accelerator overlay
entries and the secondary-installer table includes the
accelerator-communication entry. -/
theorem linux_gpu_toggle_tables :
    (generate initState none false "linux").toOption.map
      (fun r => (Table.lookup r.1.PIP_BASE "horovod",
                 Table.lookup r.1.CONDA_BASE "cudatoolkit",
                 Table.lookup r.1.CONDA_BASE "numba",
                 Table.lookup r.1.CONDA_BASE "pytorch",
                 Table.lookup r.1.CONDA_BASE "tensorflow")) =
      some (none, some "cudatoolkit>=9.2", none,
            some "pytorch-cpu>=1.0.0", some "tensorflow==1.12.0") ∧
    (generate initState none true "linux").toOption.map
      (fun r => (Table.lookup r.1.PIP_BASE "horovod",
                 Table.lookup r.1.CONDA_BASE "numba",
                 Table.lookup r.1.CONDA_BASE "pytorch",
                 Table.lookup r.1.CONDA_BASE "tensorflow")) =
      some (some "horovod>=0.16.1", some "numba>=0.38.1",
            some "pytorch>=1.0.0", some "tensorflow-gpu==1.12.0") := by
  refine ⟨by decide, by decide⟩
